import Mathlib

/-!
Shallow embedding of the `automated_blog_content_pipeline` repository
(`models.py`, `config.py`, `publisher.py`, `agents.py`, `pipeline.py`).

Modelling conventions:
- Python floats (confidence and quality scores) are modelled as `ℚ`.
- Pydantic models become Lean structures; fields that are pure timestamps
  (`created_at`, `published_at`) carry no logic and are modelled as
  `Option Unit` (presence only) or dropped where unused.
- The LangGraph state is the Python dict threaded through the nodes.
  The pipeline builds `StateGraph(dict)`; the builtin `dict` has no
  `__annotations__`, so LangGraph stores the whole state in one root channel
  and passes the very same mutable dict object to every node.  A key that
  may be absent from the dict is an `Option` field; nodes mutate the state
  in place, so an exception escaping a node or the conditional-edge function
  carries the state as mutated so far.  This is modelled by
  `Except (String × RunState) RunState`: the error case holds the exception
  message together with the mutated state.
- External collaborators (LLM agents, retrieval, HTTP) are oracles passed
  as parameters; each oracle outcome is `Except String α` (`error` = the
  collaborator raised, carrying `str(e)`).  Python renders `KeyError`
  messages with quotes around the key; the quotes are elided here and the
  message is modelled as "KeyError: <key>".
-/

namespace BlogPipeline

/-- `models.TopicSpec`. -/
structure Topic where
  title : String
  description : String
  keywords : List String
  target_audience : String
  tone : String
  deriving Repr, DecidableEq

/-- One entry of `ResearchContext.sources`: the dict built in
`ResearchAgent.research` from a retrieved `(doc, score)` pair
(`agents.py` lines 48-53). `metaSource` is `doc.metadata.get("source", "")`. -/
structure RetrievedDoc where
  content : String
  metaSource : String
  relevance_score : ℚ
  deriving Repr, DecidableEq

/-- `models.ResearchContext`. -/
structure ResearchContext where
  sources : List RetrievedDoc
  key_facts : List String
  references : List String
  confidence_score : ℚ
  deriving Repr, DecidableEq

/-- `models.OutlineSection`. -/
structure OutlineSection where
  heading : String
  level : ℕ
  content_points : List String
  estimated_words : ℕ
  deriving Repr, DecidableEq

/-- `models.BlogOutline`. -/
structure BlogOutline where
  title : String
  introduction : String
  sections : List OutlineSection
  conclusion : String
  total_estimated_words : ℕ
  deriving Repr, DecidableEq

/-- `models.BlogContent` (the `created_at` timestamp carries no logic and is
dropped). -/
structure BlogContent where
  title : String
  content : String
  meta_description : String
  tags : List String
  category : String
  word_count : ℕ
  deriving Repr, DecidableEq

/-- `models.QAResult`. -/
structure QAResult where
  approved : Bool
  score : ℚ
  issues : List String
  suggestions : List String
  factual_accuracy : ℚ
  deriving Repr, DecidableEq

/-- `models.PublishResult`; `published_at : Option Unit` models whether
`datetime.now()` was recorded. -/
structure PublishResult where
  success : Bool
  post_url : Option String
  post_id : Option String
  error_message : Option String
  published_at : Option Unit
  deriving Repr, DecidableEq

/-- The LangGraph state dict built in `BlogPipeline.run` and mutated by the
nodes. `Option` fields model dict keys that may be absent (`none` = key not
present, so `state[key]` raises `KeyError`). Stored payloads are always
`model_dump()` results of valid pydantic models, so re-validation of a
present value never fails. -/
structure RunState where
  topic : Option Topic
  research_context : Option ResearchContext
  outline : Option BlogOutline
  draft_content : Option BlogContent
  qa_result : Option QAResult
  final_content : Option BlogContent
  publish_result : Option PublishResult
  iteration_count : ℕ
  current_stage : String
  errors : List String
  deriving Repr, DecidableEq

/-- The configuration surface of `config.Settings` used by the pipeline
logic (environment-derived constants, read once at startup). -/
structure Config where
  max_writing_iterations : ℕ
  fact_confidence_threshold : ℚ
  enable_manual_approval : Bool
  auto_publish : Bool
  publish_mode : String
  deriving Repr, DecidableEq

/-! ## Publisher (`publisher.py`) -/

/-- Python truthiness test `not x` for an optional string: true for `None`
and for the empty string. -/
def optFalsy : Option String → Bool
  | none => true
  | some s => s = ""

/-- Outcome of the HTTP layer inside `TistoryPublisher.publish` /
`update_post`: `requests.post` + `raise_for_status` + `response.json()`.
`netError` models a `requests.exceptions.RequestException`; `otherError`
models any other exception raised while preparing or decoding the request;
`response` models a decoded JSON body, with the fields the code reads from
`result["tistory"]` (`none` = key absent from the JSON). -/
inductive HttpOutcome where
  | netError (msg : String)
  | otherError (msg : String)
  | response (status : Option String) (errorMessage : Option String)
      (postId : Option String) (postUrl : Option String)
  deriving Repr, DecidableEq

/-- `TistoryPublisher.publish` (publisher.py lines 25-97), for a publisher
whose resolved credentials are `apiKey`/`blogName`. The `http` oracle is
consulted only after the credential check. -/
def tistoryPublish (apiKey blogName : Option String) (http : HttpOutcome)
    (_content : BlogContent) (_visibility : String) : PublishResult :=
  if optFalsy apiKey || optFalsy blogName then
    { success := false, post_url := none, post_id := none,
      error_message := some "Tistory credentials not configured",
      published_at := none }
  else
    match http with
    | .netError m =>
      { success := false, post_url := none, post_id := none,
        error_message := some ("Network error: " ++ m), published_at := none }
    | .otherError m =>
      { success := false, post_url := none, post_id := none,
        error_message := some ("Unexpected error: " ++ m), published_at := none }
    | .response status errorMessage postId postUrl =>
      if status = some "200" then
        match postId, postUrl with
        | some i, some u =>
          { success := true, post_url := some u, post_id := some i,
            error_message := none, published_at := some () }
        | _, _ =>
          -- result["tistory"]["postId"] / ["url"] raises KeyError, caught by
          -- the generic handler (lines 92-97)
          { success := false, post_url := none, post_id := none,
            error_message := some "Unexpected error: KeyError",
            published_at := none }
      else
        { success := false, post_url := none, post_id := none,
          error_message := some (errorMessage.getD "Unknown error"),
          published_at := none }

/-- `TistoryPublisher.update_post` (publisher.py lines 99-160). -/
def tistoryUpdatePost (apiKey blogName : Option String) (http : HttpOutcome)
    (postId : String) (_content : BlogContent) : PublishResult :=
  if optFalsy apiKey || optFalsy blogName then
    { success := false, post_url := none, post_id := none,
      error_message := some "Tistory credentials not configured",
      published_at := none }
  else
    match http with
    | .netError m =>
      -- update_post has a single generic handler (lines 155-160): the
      -- message is str(e) with no prefix
      { success := false, post_url := none, post_id := none,
        error_message := some m, published_at := none }
    | .otherError m =>
      { success := false, post_url := none, post_id := none,
        error_message := some m, published_at := none }
    | .response status errorMessage urlKey _ =>
      if status = some "200" then
        match urlKey with
        | some u =>
          { success := true, post_url := some u, post_id := some postId,
            error_message := none, published_at := some () }
        | none =>
          { success := false, post_url := none, post_id := none,
            error_message := some "KeyError: url", published_at := none }
      else
        { success := false, post_url := none, post_id := none,
          error_message := some (errorMessage.getD "Unknown error"),
          published_at := none }

/-- `DryRunPublisher.publish` (publisher.py lines 166-178). -/
def dryRunPublish (content : BlogContent) (_visibility : String) : PublishResult :=
  { success := true,
    post_url := some ("https://example.tistory.com/dry-run-" ++ content.title.take 20),
    post_id := some "dry-run-12345",
    error_message := none,
    published_at := some () }

/-! ## Research agent (`agents.py`, `ResearchAgent.research`) -/

/-- Two-decimal rendering of a score, standing in for the Python format
specifier `:.2f` in the low-confidence warning message (the rounding mode
differs from IEEE-double rounding at ties; only the shape of the message
matters to the pipeline logic). -/
def fmt2 (q : ℚ) : String :=
  let n : ℤ := q.num * 100 / (q.den : ℤ)
  let whole := n / 100
  let frac := (n % 100).toNat
  toString whole ++ "." ++ (if frac < 10 then "0" else "") ++ toString frac

/-- `ResearchAgent.research` (agents.py lines 32-92), given the documents
returned by the retrieval collaborator (`rag.retrieve_with_scores`) and the
outcome of the fact-extraction LLM call (`error` = the chain raised, in
which case `key_facts = []`, lines 79-81). With zero retrieved documents it
returns early with `ResearchContext(confidence_score=0.0)` (lines 42-44);
otherwise confidence is `min(1.0, avg_score * len(sources) / 5)`. -/
def researchAgentRun (docs : List RetrievedDoc)
    (facts : Except String (List String)) : ResearchContext :=
  match docs with
  | [] => { sources := [], key_facts := [], references := [], confidence_score := 0 }
  | _ =>
    let key_facts := match facts with
      | .ok fs => fs
      | .error _ => []
    let avg := (docs.map (·.relevance_score)).sum / docs.length
    let confidence := min 1 (avg * docs.length / 5)
    { sources := docs,
      key_facts := key_facts,
      references := docs.map (·.metaSource),
      confidence_score := confidence }

/-! ## Pipeline nodes (`pipeline.py`)

Each `_*_node` method mutates the shared state dict and returns it; all of
its fallible work sits in a `try` whose handler appends to the error list —
with two exceptions modelled below: `_research_node` parses the topic
*before* its `try` (line 69), and `_optimize_node`'s handler itself reads
`state["draft_content"]` (line 177). A node that can let an exception
escape returns `Except (String × RunState) RunState`, the error carrying
the state as mutated up to the raise; nodes that cannot are plain
`RunState → RunState` functions. -/

/-- The state as left behind by a node or gate call, whether it returned or
raised (the Python dict is mutated in place, so it is the same object in
both cases). -/
def stateAfter : Except (String × RunState) RunState → RunState
  | .ok s => s
  | .error (_, s) => s

/-- `BlogPipeline._research_node` (lines 65-87). Line 69 parses
`TopicSpec(**state["topic"])` before line 70 sets `current_stage`, so a
missing topic key raises with the stage marker still unset. -/
def researchNode (threshold : ℚ) (res : Except String ResearchContext)
    (s : RunState) : Except (String × RunState) RunState :=
  match s.topic with
  | none => .error ("KeyError: topic", s)
  | some _ =>
    let s1 := { s with current_stage := "research" }
    match res with
    | .error e => .ok { s1 with errors := s1.errors ++ ["Research error: " ++ e] }
    | .ok rc =>
      let s2 := { s1 with research_context := some rc }
      if rc.confidence_score < threshold then
        .ok { s2 with errors := s2.errors ++
          ["Research confidence below threshold: " ++ fmt2 rc.confidence_score] }
      else
        .ok s2

/-- `BlogPipeline._outline_node` (lines 89-108): parse topic then research
context (lines 97-98), call the outline agent; any failure is caught and
appended. -/
def outlineNode (res : Except String BlogOutline) (s : RunState) : RunState :=
  let s1 := { s with current_stage := "outline" }
  match s1.topic with
  | none => { s1 with errors := s1.errors ++ ["Outline error: KeyError: topic"] }
  | some _ =>
    match s1.research_context with
    | none => { s1 with errors := s1.errors ++ ["Outline error: KeyError: research_context"] }
    | some _ =>
      match res with
      | .ok o => { s1 with outline := some o }
      | .error e => { s1 with errors := s1.errors ++ ["Outline error: " ++ e] }

/-- `BlogPipeline._write_node` (lines 110-131): sets the stage marker and
increments `iteration_count` unconditionally (line 115) before the `try`;
parse topic, outline, research context (lines 119-121), then call the
writer agent. -/
def writeNode (res : Except String BlogContent) (s : RunState) : RunState :=
  let s1 := { s with current_stage := "write", iteration_count := s.iteration_count + 1 }
  match s1.topic with
  | none => { s1 with errors := s1.errors ++ ["Write error: KeyError: topic"] }
  | some _ =>
    match s1.outline with
    | none => { s1 with errors := s1.errors ++ ["Write error: KeyError: outline"] }
    | some _ =>
      match s1.research_context with
      | none => { s1 with errors := s1.errors ++ ["Write error: KeyError: research_context"] }
      | some _ =>
        match res with
        | .ok c => { s1 with draft_content := some c }
        | .error e => { s1 with errors := s1.errors ++ ["Write error: " ++ e] }

/-- `BlogPipeline._critique_node` (lines 133-157): parse draft then research
context (lines 141-142), call the critic; on failure append and leave
`qa_result` as it was. -/
def critiqueNode (res : Except String QAResult) (s : RunState) : RunState :=
  let s1 := { s with current_stage := "critique" }
  match s1.draft_content with
  | none => { s1 with errors := s1.errors ++ ["Critique error: KeyError: draft_content"] }
  | some _ =>
    match s1.research_context with
    | none => { s1 with errors := s1.errors ++ ["Critique error: KeyError: research_context"] }
    | some _ =>
      match res with
      | .ok qa => { s1 with qa_result := some qa }
      | .error e => { s1 with errors := s1.errors ++ ["Critique error: " ++ e] }

/-- `BlogPipeline._optimize_node` (lines 159-179). The `except` handler
first appends the error and then evaluates `state["draft_content"]`
(line 177): when the draft key is missing that second read raises
`KeyError` out of the node. -/
def optimizeNode (res : BlogContent → Except String BlogContent)
    (s : RunState) : Except (String × RunState) RunState :=
  let s1 := { s with current_stage := "optimize" }
  match s1.draft_content with
  | none =>
    .error ("KeyError: draft_content",
      { s1 with errors := s1.errors ++ ["Optimize error: KeyError: draft_content"] })
  | some d =>
    match res d with
    | .ok c => .ok { s1 with final_content := some c }
    | .error e =>
      .ok { s1 with errors := s1.errors ++ ["Optimize error: " ++ e],
                    final_content := some d }

/-- `agents.SEOAgent.optimize` (agents.py lines 319-326): returns the
content unchanged in v1, never raises. -/
def seoOptimize (c : BlogContent) : Except String BlogContent := .ok c

/-- `BlogPipeline._publish_node` (lines 181-216): parse final content, run
the manual-approval prompt when enabled, then call the publish collaborator
with visibility `publish_mode` if `auto_publish` else `"draft"`. -/
def cancelledResult : PublishResult :=
  { success := false, post_url := none, post_id := none,
    error_message := some "Cancelled by user", published_at := none }

def publishNode (cfg : Config) (approval : String)
    (pub : BlogContent → String → PublishResult) (s : RunState) : RunState :=
  let s1 := { s with current_stage := "publish" }
  match s1.final_content with
  | none => { s1 with errors := s1.errors ++ ["Publish error: KeyError: final_content"] }
  | some c =>
    if cfg.enable_manual_approval && approval.toLower != "yes" then
      { s1 with publish_result := some cancelledResult }
    else
      let visibility := if cfg.auto_publish then cfg.publish_mode else "draft"
      { s1 with publish_result := some (pub c visibility) }

/-- `BlogPipeline._should_revise` (lines 218-239), the conditional edge
after critique. Line 222 evaluates `QAResult(**state["qa_result"])`: a
missing `qa_result` key raises `KeyError` out of the gate. Otherwise the
route is a pure function of `qa.approved` and `iteration_count`. -/
def shouldRevise (maxIter : ℕ) (s : RunState) : Except (String × RunState) String :=
  match s.qa_result with
  | none => .error ("KeyError: qa_result", s)
  | some qa =>
    if qa.approved then .ok "optimize"
    else if maxIter ≤ s.iteration_count then .ok "optimize"
    else .ok "revise"

/-! ## Graph execution (`_build_graph` wiring + LangGraph invoke) -/

/-- The external collaborators and console input feeding one pipeline run.
`writer`/`critic` are indexed by the value of `iteration_count` at the
start of the corresponding write→critique pass, since each pass calls them
exactly once. -/
structure Oracles where
  research : Except String ResearchContext
  outline : Except String BlogOutline
  writer : ℕ → Except String BlogContent
  critic : ℕ → Except String QAResult
  seo : BlogContent → Except String BlogContent
  approval : String
  pub : BlogContent → String → PublishResult

theorem writeNode_iteration (res : Except String BlogContent) (s : RunState) :
    (writeNode res s).iteration_count = s.iteration_count + 1 := by
  unfold writeNode
  cases s.topic <;> cases s.outline <;> cases s.research_context <;> cases res <;> rfl

theorem critiqueNode_iteration (res : Except String QAResult) (s : RunState) :
    (critiqueNode res s).iteration_count = s.iteration_count := by
  unfold critiqueNode
  cases s.draft_content <;> cases s.research_context <;> cases res <;> rfl

theorem shouldRevise_revise_lt {maxIter : ℕ} {s : RunState}
    (h : shouldRevise maxIter s = .ok "revise") : s.iteration_count < maxIter := by
  unfold shouldRevise at h
  cases hq : s.qa_result with
  | none => simp [hq] at h
  | some qa =>
    simp only [hq] at h
    by_cases ha : qa.approved
    · simp [ha] at h
    · simp only [ha, if_false, Bool.false_eq_true] at h
      by_cases hm : maxIter ≤ s.iteration_count
      · simp [hm] at h
      · omega

/-- One write→critique pass followed by the gate, recursing on the back
edge `critique → write` while the gate answers "revise" (`_build_graph`,
lines 48-58). The recursion is driven by the explicit bound `fuel`: the
wrapper `writeLoop` below supplies `maxIter - iteration_count`, which
`writeLoop_eq` proves is always sufficient, because a "revise" answer
requires `iteration_count < maxIter` and each pass increments the counter.
The `fuel = 0` fallback inside the "revise" branch is unreachable under the
wrapper's fuel choice. -/
def writeLoopAux (maxIter : ℕ) (w : ℕ → Except String BlogContent)
    (c : ℕ → Except String QAResult) : ℕ → RunState →
    Except (String × RunState) RunState
  | fuel, s =>
    let sC := critiqueNode (c s.iteration_count) (writeNode (w s.iteration_count) s)
    match shouldRevise maxIter sC with
    | .error e => .error e
    | .ok r =>
      if r = "revise" then
        match fuel with
        | 0 => .ok sC
        | fuel' + 1 => writeLoopAux maxIter w c fuel' sC
      else .ok sC

/-- The write→critique→gate loop of the compiled graph, entered from the
outline stage or re-entered on the "revise" edge. -/
def writeLoop (maxIter : ℕ) (w : ℕ → Except String BlogContent)
    (c : ℕ → Except String QAResult) (s : RunState) :
    Except (String × RunState) RunState :=
  writeLoopAux maxIter w c (maxIter - s.iteration_count) s

theorem writeLoopAux_fuel_irrel (maxIter : ℕ) (w : ℕ → Except String BlogContent)
    (c : ℕ → Except String QAResult) :
    ∀ fuel₁ fuel₂ s, maxIter - s.iteration_count ≤ fuel₁ →
      maxIter - s.iteration_count ≤ fuel₂ →
      writeLoopAux maxIter w c fuel₁ s = writeLoopAux maxIter w c fuel₂ s := by
  intro fuel₁
  induction fuel₁ using Nat.strong_induction_on with
  | _ fuel₁ ih =>
    intro fuel₂ s h₁ h₂
    rw [writeLoopAux.eq_def, writeLoopAux.eq_def]
    simp only []
    cases hg : shouldRevise maxIter
        (critiqueNode (c s.iteration_count) (writeNode (w s.iteration_count) s)) with
    | error e => rfl
    | ok r =>
      by_cases hr : r = "revise"
      · have hlt : (critiqueNode (c s.iteration_count)
            (writeNode (w s.iteration_count) s)).iteration_count < maxIter :=
          shouldRevise_revise_lt (hr ▸ hg)
        rw [critiqueNode_iteration, writeNode_iteration] at hlt
        simp only [hr, if_true]
        cases fuel₁ with
        | zero => omega
        | succ f₁ =>
          cases fuel₂ with
          | zero => omega
          | succ f₂ =>
            show writeLoopAux maxIter w c f₁ _ = writeLoopAux maxIter w c f₂ _
            apply ih f₁ (by omega)
            all_goals
              rw [critiqueNode_iteration, writeNode_iteration]
              omega
      · simp only [hr, if_false]

/-- The loop satisfies the recurrence of the source graph verbatim: run one
write→critique pass, consult the gate, and on "revise" loop back with the
critiqued state — independently of the fuel bookkeeping. -/
theorem writeLoop_eq (maxIter : ℕ) (w : ℕ → Except String BlogContent)
    (c : ℕ → Except String QAResult) (s : RunState) :
    writeLoop maxIter w c s =
      (let sC := critiqueNode (c s.iteration_count) (writeNode (w s.iteration_count) s)
       match shouldRevise maxIter sC with
       | .error e => .error e
       | .ok r => if r = "revise" then writeLoop maxIter w c sC else .ok sC) := by
  show writeLoopAux maxIter w c (maxIter - s.iteration_count) s = _
  rw [writeLoopAux.eq_def]
  simp only []
  cases hg : shouldRevise maxIter
      (critiqueNode (c s.iteration_count) (writeNode (w s.iteration_count) s)) with
  | error e => rfl
  | ok r =>
    by_cases hr : r = "revise"
    · have hlt : (critiqueNode (c s.iteration_count)
          (writeNode (w s.iteration_count) s)).iteration_count < maxIter :=
        shouldRevise_revise_lt (hr ▸ hg)
      rw [critiqueNode_iteration, writeNode_iteration] at hlt
      simp only [hr, if_true]
      cases hf : maxIter - s.iteration_count with
      | zero => omega
      | succ f =>
        show writeLoopAux maxIter w c f _ = writeLoopAux maxIter w c _ _
        apply writeLoopAux_fuel_irrel
        all_goals
          rw [critiqueNode_iteration, writeNode_iteration]
          try omega
    · simp only [hr, if_false]

/-- The compiled graph applied to a state (`self.graph.invoke(state)`):
research → outline → write⇄critique loop → optimize → publish → END.
An exception escaping a node or the gate aborts execution, carrying the
mutated state. -/
def graphInvoke (cfg : Config) (o : Oracles) (s0 : RunState) :
    Except (String × RunState) RunState :=
  match researchNode cfg.fact_confidence_threshold o.research s0 with
  | .error e => .error e
  | .ok s1 =>
    let s2 := outlineNode o.outline s1
    match writeLoop cfg.max_writing_iterations o.writer o.critic s2 with
    | .error e => .error e
    | .ok s3 =>
      match optimizeNode o.seo s3 with
      | .error e => .error e
      | .ok s4 => .ok (publishNode cfg o.approval o.pub s4)

/-- The initial state dict built by `BlogPipeline.run` (lines 246-251). -/
def initState (t : Topic) : RunState :=
  { topic := some t, research_context := none, outline := none,
    draft_content := none, qa_result := none, final_content := none,
    publish_result := none, iteration_count := 0,
    current_stage := "initialized", errors := [] }

/-- `BlogPipeline.run` (lines 241-261): build the initial state, invoke the
graph, and on any escaping exception append a pipeline error and return the
state. Because the whole state is one shared mutable dict (root channel of
`StateGraph(dict)`), the dict `run` holds is the dict the nodes mutated, so
the exception branch returns the state as mutated up to the raise. -/
def runPipeline (cfg : Config) (o : Oracles) (t : Topic) : RunState :=
  match graphInvoke cfg o (initState t) with
  | .ok final => final
  | .error (m, sc) => { sc with errors := sc.errors ++ ["Pipeline error: " ++ m] }

/-! ## Structural lemmas about the nodes and the gate -/

theorem researchNode_iteration (th : ℚ) (r : Except String ResearchContext)
    (s : RunState) :
    (stateAfter (researchNode th r s)).iteration_count = s.iteration_count := by
  rcases hs : s.topic with _ | tp
  · simp [researchNode, hs, stateAfter]
  · rcases hr : r with e | rc
    · simp [researchNode, hs, hr, stateAfter]
    · by_cases hc : rc.confidence_score < th <;>
        simp [researchNode, hs, hr, hc, stateAfter]

theorem outlineNode_iteration (r : Except String BlogOutline) (s : RunState) :
    (outlineNode r s).iteration_count = s.iteration_count := by
  unfold outlineNode
  cases s.topic <;> cases s.research_context <;> cases r <;> rfl

theorem optimizeNode_iteration (r : BlogContent → Except String BlogContent)
    (s : RunState) :
    (stateAfter (optimizeNode r s)).iteration_count = s.iteration_count := by
  rcases hd : s.draft_content with _ | d
  · simp [optimizeNode, hd, stateAfter]
  · rcases hr : r d with e | c <;> simp [optimizeNode, hd, hr, stateAfter]

theorem publishNode_iteration (cfg : Config) (a : String)
    (p : BlogContent → String → PublishResult) (s : RunState) :
    (publishNode cfg a p s).iteration_count = s.iteration_count := by
  unfold publishNode
  cases s.final_content with
  | none => rfl
  | some c =>
    dsimp only []
    split <;> rfl

theorem critiqueNode_stage (r : Except String QAResult) (s : RunState) :
    (critiqueNode r s).current_stage = "critique" := by
  unfold critiqueNode
  cases s.draft_content <;> cases s.research_context <;> cases r <;> rfl

theorem publishNode_stage (cfg : Config) (a : String)
    (p : BlogContent → String → PublishResult) (s : RunState) :
    (publishNode cfg a p s).current_stage = "publish" := by
  unfold publishNode
  cases s.final_content with
  | none => rfl
  | some c =>
    dsimp only []
    split <;> rfl

theorem shouldRevise_error {maxIter : ℕ} {s : RunState}
    {e : String × RunState} (h : shouldRevise maxIter s = .error e) :
    e = ("KeyError: qa_result", s) ∧ s.qa_result = none := by
  unfold shouldRevise at h
  cases hq : s.qa_result with
  | none =>
    rw [hq] at h
    exact ⟨(Except.error.injEq _ _).mp h.symm ▸ rfl, rfl⟩
  | some qa =>
    rw [hq] at h
    by_cases ha : qa.approved <;> simp [ha] at h
    split at h <;> simp at h

theorem shouldRevise_ok_qa {maxIter : ℕ} {s : RunState} {r : String}
    (h : shouldRevise maxIter s = .ok r) : s.qa_result.isSome := by
  unfold shouldRevise at h
  cases hq : s.qa_result with
  | none => rw [hq] at h; exact absurd h (by simp)
  | some qa => rfl

/-- The fields of the state that `_write_node` can never change. -/
theorem writeNode_fields (r : Except String BlogContent) (s : RunState) :
    (writeNode r s).topic = s.topic ∧
    (writeNode r s).research_context = s.research_context ∧
    (writeNode r s).outline = s.outline ∧
    (writeNode r s).qa_result = s.qa_result ∧
    (writeNode r s).final_content = s.final_content ∧
    (writeNode r s).publish_result = s.publish_result := by
  unfold writeNode
  cases s.topic <;> cases s.outline <;> cases s.research_context <;> cases r <;>
    exact ⟨rfl, rfl, rfl, rfl, rfl, rfl⟩

/-- The fields of the state that `_critique_node` can never change. -/
theorem critiqueNode_fields (r : Except String QAResult) (s : RunState) :
    (critiqueNode r s).topic = s.topic ∧
    (critiqueNode r s).research_context = s.research_context ∧
    (critiqueNode r s).outline = s.outline ∧
    (critiqueNode r s).draft_content = s.draft_content ∧
    (critiqueNode r s).final_content = s.final_content ∧
    (critiqueNode r s).publish_result = s.publish_result := by
  unfold critiqueNode
  cases s.draft_content <;> cases s.research_context <;> cases r <;>
    exact ⟨rfl, rfl, rfl, rfl, rfl, rfl⟩

/-- `_write_node` leaves an existing draft in place when its body fails,
and otherwise replaces it. -/
theorem writeNode_draft (r : Except String BlogContent) (s : RunState) :
    (writeNode r s).draft_content = s.draft_content ∨
    ∃ c, (writeNode r s).draft_content = some c := by
  unfold writeNode
  cases s.topic <;> cases s.outline <;> cases s.research_context <;> cases r <;>
    first
      | exact .inl rfl
      | exact .inr ⟨_, rfl⟩

/-- `_critique_node` sets `qa_result` only after its draft and research
lookups succeeded: whenever the critiqued state holds a QA result, it also
holds a draft. -/
theorem critiqueNode_qa_draft (r : Except String QAResult) (s : RunState)
    (hs : s.qa_result.isSome → s.draft_content.isSome) :
    (critiqueNode r s).qa_result.isSome → (critiqueNode r s).draft_content.isSome := by
  unfold critiqueNode
  cases hd : s.draft_content <;> cases s.research_context <;> cases r <;>
    simp_all

/-! ## Lemmas about the write→critique→gate loop -/

/-- Any state property preserved by the write node and the critique node is
preserved by the whole loop, whether it exits through the gate or aborts on
a gate exception. -/
theorem writeLoopAux_preserves (M : ℕ) (w : ℕ → Except String BlogContent)
    (c : ℕ → Except String QAResult) (P : RunState → Prop)
    (hw : ∀ r s, P s → P (writeNode r s))
    (hc : ∀ r s, P s → P (critiqueNode r s)) :
    ∀ fuel s, P s → P (stateAfter (writeLoopAux M w c fuel s)) := by
  intro fuel
  induction fuel with
  | zero =>
    intro s hP
    rw [writeLoopAux.eq_def]
    have hPC : P (critiqueNode (c s.iteration_count) (writeNode (w s.iteration_count) s)) :=
      hc _ _ (hw _ _ hP)
    cases hg : shouldRevise M (critiqueNode (c s.iteration_count) (writeNode (w s.iteration_count) s)) with
    | error e =>
      obtain ⟨he, -⟩ := shouldRevise_error hg
      simp only [hg, he, stateAfter]
      exact hPC
    | ok r =>
      by_cases hr : r = "revise" <;> simp only [hg, hr, if_true, if_false, stateAfter] <;>
        exact hPC
  | succ f ih =>
    intro s hP
    rw [writeLoopAux.eq_def]
    have hPC : P (critiqueNode (c s.iteration_count) (writeNode (w s.iteration_count) s)) :=
      hc _ _ (hw _ _ hP)
    cases hg : shouldRevise M (critiqueNode (c s.iteration_count) (writeNode (w s.iteration_count) s)) with
    | error e =>
      obtain ⟨he, -⟩ := shouldRevise_error hg
      simp only [hg, he, stateAfter]
      exact hPC
    | ok r =>
      by_cases hr : r = "revise"
      · simp only [hg, hr, if_true]
        exact ih _ hPC
      · simp only [hg, hr, if_false, stateAfter]
        exact hPC

/-- The loop leaves with an iteration counter at most one past its entry
value or at most the configured maximum, whichever is larger. -/
theorem writeLoopAux_iteration_le (M : ℕ) (w : ℕ → Except String BlogContent)
    (c : ℕ → Except String QAResult) :
    ∀ fuel s, (stateAfter (writeLoopAux M w c fuel s)).iteration_count ≤
      max (s.iteration_count + 1) M := by
  intro fuel
  induction fuel with
  | zero =>
    intro s
    rw [writeLoopAux.eq_def]
    have hit : (critiqueNode (c s.iteration_count) (writeNode (w s.iteration_count) s)).iteration_count
        = s.iteration_count + 1 := by
      rw [critiqueNode_iteration, writeNode_iteration]
    cases hg : shouldRevise M (critiqueNode (c s.iteration_count) (writeNode (w s.iteration_count) s)) with
    | error e =>
      obtain ⟨he, -⟩ := shouldRevise_error hg
      simp only [hg, he, stateAfter]
      omega
    | ok r =>
      by_cases hr : r = "revise" <;> simp only [hg, hr, if_true, if_false, stateAfter] <;>
        omega
  | succ f ih =>
    intro s
    rw [writeLoopAux.eq_def]
    have hit : (critiqueNode (c s.iteration_count) (writeNode (w s.iteration_count) s)).iteration_count
        = s.iteration_count + 1 := by
      rw [critiqueNode_iteration, writeNode_iteration]
    cases hg : shouldRevise M (critiqueNode (c s.iteration_count) (writeNode (w s.iteration_count) s)) with
    | error e =>
      obtain ⟨he, -⟩ := shouldRevise_error hg
      simp only [hg, he, stateAfter]
      omega
    | ok r =>
      by_cases hr : r = "revise"
      · have hlt : (critiqueNode (c s.iteration_count) (writeNode (w s.iteration_count) s)).iteration_count < M :=
          shouldRevise_revise_lt (hr ▸ hg)
        have := ih (critiqueNode (c s.iteration_count) (writeNode (w s.iteration_count) s))
        simp only [hg, hr, if_true]
        omega
      · simp only [hg, hr, if_false, stateAfter]
        omega

/-- The only exception that can escape the loop is the gate reading the
missing `qa_result` key, and it is raised with the state left by a critique
pass: the stage marker reads "critique" and `qa_result` is unset. -/
theorem writeLoopAux_error (M : ℕ) (w : ℕ → Except String BlogContent)
    (c : ℕ → Except String QAResult) :
    ∀ fuel s m sc, writeLoopAux M w c fuel s = .error (m, sc) →
      m = "KeyError: qa_result" ∧ sc.current_stage = "critique" ∧ sc.qa_result = none := by
  intro fuel
  induction fuel with
  | zero =>
    intro s m sc h
    rw [writeLoopAux.eq_def] at h
    dsimp only [] at h
    cases hg : shouldRevise M (critiqueNode (c s.iteration_count) (writeNode (w s.iteration_count) s)) with
    | error e =>
      obtain ⟨he, hq⟩ := shouldRevise_error hg
      rw [hg, he] at h
      dsimp only [] at h
      simp only [Except.error.injEq, Prod.mk.injEq] at h
      obtain ⟨hm, hsc⟩ := h
      exact ⟨hm.symm, hsc ▸ critiqueNode_stage _ _, hsc ▸ hq⟩
    | ok r =>
      rw [hg] at h
      dsimp only [] at h
      by_cases hr : r = "revise" <;> simp [hr] at h
  | succ f ih =>
    intro s m sc h
    rw [writeLoopAux.eq_def] at h
    dsimp only [] at h
    cases hg : shouldRevise M (critiqueNode (c s.iteration_count) (writeNode (w s.iteration_count) s)) with
    | error e =>
      obtain ⟨he, hq⟩ := shouldRevise_error hg
      rw [hg, he] at h
      dsimp only [] at h
      simp only [Except.error.injEq, Prod.mk.injEq] at h
      obtain ⟨hm, hsc⟩ := h
      exact ⟨hm.symm, hsc ▸ critiqueNode_stage _ _, hsc ▸ hq⟩
    | ok r =>
      rw [hg] at h
      dsimp only [] at h
      by_cases hr : r = "revise"
      · rw [if_pos hr] at h
        exact ih _ _ _ h
      · rw [if_neg hr] at h
        simp at h

/-- A normal exit from the loop carries the state left by the last critique
pass, with a QA result present (the gate returned a route). -/
theorem writeLoopAux_ok (M : ℕ) (w : ℕ → Except String BlogContent)
    (c : ℕ → Except String QAResult) :
    ∀ fuel s s', writeLoopAux M w c fuel s = .ok s' →
      s'.current_stage = "critique" ∧ s'.qa_result.isSome := by
  intro fuel
  induction fuel with
  | zero =>
    intro s s' h
    rw [writeLoopAux.eq_def] at h
    dsimp only [] at h
    cases hg : shouldRevise M (critiqueNode (c s.iteration_count) (writeNode (w s.iteration_count) s)) with
    | error e =>
      rw [hg] at h
      dsimp only [] at h
      simp at h
    | ok r =>
      rw [hg] at h
      dsimp only [] at h
      have hq := shouldRevise_ok_qa hg
      by_cases hr : r = "revise" <;> simp only [hr, if_true, if_false] at h <;>
        (obtain rfl : _ = s' := (Except.ok.injEq _ _).mp h) <;>
        exact ⟨critiqueNode_stage _ _, hq⟩
  | succ f ih =>
    intro s s' h
    rw [writeLoopAux.eq_def] at h
    dsimp only [] at h
    cases hg : shouldRevise M (critiqueNode (c s.iteration_count) (writeNode (w s.iteration_count) s)) with
    | error e =>
      rw [hg] at h
      dsimp only [] at h
      simp at h
    | ok r =>
      rw [hg] at h
      dsimp only [] at h
      have hq := shouldRevise_ok_qa hg
      by_cases hr : r = "revise"
      · rw [if_pos hr] at h
        exact ih _ _ h
      · rw [if_neg hr] at h
        obtain rfl : _ = s' := (Except.ok.injEq _ _).mp h
        exact ⟨critiqueNode_stage _ _, hq⟩

/-! ## Further node shape lemmas -/

/-- With the topic key present, `_research_node` cannot raise, and it
touches only `research_context`, `current_stage` and the error list. -/
theorem researchNode_ok_spec (th : ℚ) (r : Except String ResearchContext)
    (s : RunState) (h : s.topic.isSome) :
    ∃ s', researchNode th r s = .ok s' ∧
      s'.topic = s.topic ∧ s'.outline = s.outline ∧
      s'.draft_content = s.draft_content ∧ s'.qa_result = s.qa_result ∧
      s'.final_content = s.final_content ∧ s'.publish_result = s.publish_result ∧
      s'.iteration_count = s.iteration_count ∧ s'.current_stage = "research" := by
  obtain ⟨tp, htp⟩ := Option.isSome_iff_exists.mp h
  unfold researchNode
  rw [htp]
  dsimp only []
  rcases r with e | rc
  · exact ⟨_, rfl, htp ▸ rfl, rfl, rfl, rfl, rfl, rfl, rfl, rfl⟩
  · dsimp only []
    by_cases hc : rc.confidence_score < th
    · rw [if_pos hc]
      exact ⟨_, rfl, htp ▸ rfl, rfl, rfl, rfl, rfl, rfl, rfl, rfl⟩
    · rw [if_neg hc]
      exact ⟨_, rfl, htp ▸ rfl, rfl, rfl, rfl, rfl, rfl, rfl, rfl⟩

/-- With both inputs present and a successful outline agent, the outline
node stores the produced outline. -/
theorem outlineNode_ok (b : BlogOutline) (s : RunState)
    (ht : s.topic.isSome) (hr : s.research_context.isSome) :
    (outlineNode (.ok b) s).outline = some b := by
  obtain ⟨tp, htp⟩ := Option.isSome_iff_exists.mp ht
  obtain ⟨rc, hrc⟩ := Option.isSome_iff_exists.mp hr
  unfold outlineNode
  rw [htp, hrc]

/-- The fields of the state that `_outline_node` can never change. -/
theorem outlineNode_fields (r : Except String BlogOutline) (s : RunState) :
    (outlineNode r s).topic = s.topic ∧
    (outlineNode r s).research_context = s.research_context ∧
    (outlineNode r s).draft_content = s.draft_content ∧
    (outlineNode r s).qa_result = s.qa_result ∧
    (outlineNode r s).final_content = s.final_content ∧
    (outlineNode r s).publish_result = s.publish_result := by
  unfold outlineNode
  cases s.topic <;> cases s.research_context <;> cases r <;>
    exact ⟨rfl, rfl, rfl, rfl, rfl, rfl⟩

/-- With all three inputs present and a successful writer, the write node
stores the produced draft. -/
theorem writeNode_ok (b : BlogContent) (s : RunState)
    (ht : s.topic.isSome) (ho : s.outline.isSome) (hr : s.research_context.isSome) :
    (writeNode (.ok b) s).draft_content = some b := by
  obtain ⟨tp, htp⟩ := Option.isSome_iff_exists.mp ht
  obtain ⟨ol, hol⟩ := Option.isSome_iff_exists.mp ho
  obtain ⟨rc, hrc⟩ := Option.isSome_iff_exists.mp hr
  unfold writeNode
  rw [htp, hol, hrc]

/-- The write node keeps the invariant that a state holding a QA result
also holds a draft. -/
theorem writeNode_qa_draft (r : Except String BlogContent) (s : RunState)
    (hs : s.qa_result.isSome → s.draft_content.isSome) :
    (writeNode r s).qa_result.isSome → (writeNode r s).draft_content.isSome := by
  unfold writeNode
  cases s.topic <;> cases s.outline <;> cases hd : s.draft_content <;>
    cases s.research_context <;> cases r <;> simp_all

/-- With draft and research present and a successful critic, the critique
node stores the QA result. -/
theorem critiqueNode_ok (q : QAResult) (s : RunState)
    (hd : s.draft_content.isSome) (hr : s.research_context.isSome) :
    (critiqueNode (.ok q) s).qa_result = some q := by
  obtain ⟨d, hdd⟩ := Option.isSome_iff_exists.mp hd
  obtain ⟨rc, hrc⟩ := Option.isSome_iff_exists.mp hr
  unfold critiqueNode
  rw [hdd, hrc]

/-- A state holding a QA result is routed by the gate, not crashed on. -/
theorem shouldRevise_some_ok (M : ℕ) (s : RunState) (h : s.qa_result.isSome) :
    ∃ r, shouldRevise M s = .ok r := by
  obtain ⟨qa, hq⟩ := Option.isSome_iff_exists.mp h
  unfold shouldRevise
  rw [hq]
  dsimp only []
  by_cases ha : qa.approved
  · exact ⟨_, by rw [if_pos ha]⟩
  · by_cases hm : M ≤ s.iteration_count
    · exact ⟨_, by rw [if_neg ha, if_pos hm]⟩
    · exact ⟨_, by rw [if_neg ha, if_neg hm]⟩

/-- When every writer and critic call succeeds and the loop is entered with
topic, outline and research context present, the loop exits normally. -/
theorem writeLoopAux_success (M : ℕ) (w : ℕ → Except String BlogContent)
    (c : ℕ → Except String QAResult)
    (hw : ∀ i, ∃ b, w i = .ok b) (hc : ∀ i, ∃ q, c i = .ok q) :
    ∀ fuel s, s.topic.isSome → s.outline.isSome → s.research_context.isSome →
      ∃ s', writeLoopAux M w c fuel s = .ok s' := by
  have key : ∀ s : RunState, s.topic.isSome → s.outline.isSome → s.research_context.isSome →
      (critiqueNode (c s.iteration_count) (writeNode (w s.iteration_count) s)).qa_result.isSome := by
    intro s ht ho hr
    obtain ⟨b, hb⟩ := hw s.iteration_count
    obtain ⟨q, hq⟩ := hc s.iteration_count
    rw [hb, hq]
    have hdraft : (writeNode (.ok b) s).draft_content = some b := writeNode_ok b s ht ho hr
    have hres : (writeNode (.ok b) s).research_context = s.research_context :=
      (writeNode_fields _ s).2.1
    rw [critiqueNode_ok q _ (by rw [hdraft]; rfl) (by rw [hres]; exact hr)]
    rfl
  have pres : ∀ (r : Except String QAResult) (r' : Except String BlogContent) (s : RunState),
      s.topic.isSome → s.outline.isSome → s.research_context.isSome →
      (critiqueNode r (writeNode r' s)).topic.isSome ∧
      (critiqueNode r (writeNode r' s)).outline.isSome ∧
      (critiqueNode r (writeNode r' s)).research_context.isSome := by
    intro r r' s ht ho hr
    refine ⟨?_, ?_, ?_⟩
    · rw [(critiqueNode_fields _ _).1, (writeNode_fields _ _).1]; exact ht
    · rw [(critiqueNode_fields _ _).2.2.1, (writeNode_fields _ _).2.2.1]; exact ho
    · rw [(critiqueNode_fields _ _).2.1, (writeNode_fields _ _).2.1]; exact hr
  intro fuel
  induction fuel with
  | zero =>
    intro s ht ho hr
    rw [writeLoopAux.eq_def]
    dsimp only []
    obtain ⟨r, hrt⟩ := shouldRevise_some_ok M _ (key s ht ho hr)
    rw [hrt]
    dsimp only []
    by_cases hrev : r = "revise" <;> simp [hrev]
  | succ f ih =>
    intro s ht ho hr
    rw [writeLoopAux.eq_def]
    dsimp only []
    obtain ⟨r, hrt⟩ := shouldRevise_some_ok M _ (key s ht ho hr)
    rw [hrt]
    dsimp only []
    by_cases hrev : r = "revise"
    · rw [if_pos hrev]
      obtain ⟨ht', ho', hr'⟩ := pres (c s.iteration_count) (w s.iteration_count) s ht ho hr
      exact ih _ ht' ho' hr'
    · rw [if_neg hrev]
      exact ⟨_, rfl⟩

/-- With a draft present, `_optimize_node` cannot raise and always leaves a
final content behind (the SEO output, or the draft as fallback). -/
theorem optimizeNode_ok_spec (r : BlogContent → Except String BlogContent)
    (s : RunState) (d : BlogContent) (hd : s.draft_content = some d) :
    ∃ s', optimizeNode r s = .ok s' ∧ s'.final_content.isSome ∧
      s'.current_stage = "optimize" ∧ s'.topic = s.topic ∧
      s'.outline = s.outline ∧ s'.draft_content = s.draft_content ∧
      s'.qa_result = s.qa_result ∧ s'.iteration_count = s.iteration_count := by
  unfold optimizeNode
  rw [hd]
  dsimp only []
  rcases hr : r d with e | co <;>
    exact ⟨_, rfl, rfl, rfl, rfl, rfl, rfl, rfl, rfl⟩

/-- With a final content present, `_publish_node` records a publish result
(either the collaborator's result or the manual-approval cancellation). -/
theorem publishNode_result (cfg : Config) (a : String)
    (p : BlogContent → String → PublishResult) (s : RunState) (c : BlogContent)
    (hf : s.final_content = some c) :
    (publishNode cfg a p s).publish_result.isSome := by
  unfold publishNode
  rw [hf]
  dsimp only []
  split <;> rfl

/-- The fields of the state that `_publish_node` can never change. -/
theorem publishNode_fields (cfg : Config) (a : String)
    (p : BlogContent → String → PublishResult) (s : RunState) :
    (publishNode cfg a p s).topic = s.topic ∧
    (publishNode cfg a p s).research_context = s.research_context ∧
    (publishNode cfg a p s).outline = s.outline ∧
    (publishNode cfg a p s).draft_content = s.draft_content ∧
    (publishNode cfg a p s).qa_result = s.qa_result ∧
    (publishNode cfg a p s).final_content = s.final_content := by
  unfold publishNode
  cases s.final_content with
  | none => exact ⟨rfl, rfl, rfl, rfl, rfl, rfl⟩
  | some c =>
    dsimp only []
    split <;> exact ⟨rfl, rfl, rfl, rfl, rfl, rfl⟩

/-- Stage stamp of the outline node, on every input. -/
theorem outlineNode_stage (r : Except String BlogOutline) (s : RunState) :
    (outlineNode r s).current_stage = "outline" := by
  unfold outlineNode
  cases s.topic <;> cases s.research_context <;> cases r <;> rfl

/-- Stage stamp of the write node, on every input. -/
theorem writeNode_stage (r : Except String BlogContent) (s : RunState) :
    (writeNode r s).current_stage = "write" := by
  unfold writeNode
  cases s.topic <;> cases s.outline <;> cases s.research_context <;> cases r <;> rfl

/-- Stage stamp of the optimize node, whether it returns or raises. -/
theorem optimizeNode_stage (r : BlogContent → Except String BlogContent)
    (s : RunState) :
    (stateAfter (optimizeNode r s)).current_stage = "optimize" := by
  rcases hd : s.draft_content with _ | d
  · simp [optimizeNode, hd, stateAfter]
  · rcases hr : r d with e | c <;> simp [optimizeNode, hd, hr, stateAfter]

/-- Stage stamp of the research node, whenever the topic key is present. -/
theorem researchNode_stage (th : ℚ) (r : Except String ResearchContext)
    (s : RunState) (h : s.topic.isSome) :
    (stateAfter (researchNode th r s)).current_stage = "research" := by
  obtain ⟨s1, hg, -, -, -, -, -, -, -, hst⟩ := researchNode_ok_spec th r s h
  rw [hg]
  exact hst

/-- The iteration counter of the state left behind by a whole graph
invocation (normal or aborted) is bounded by one more than its entry value
or by the configured maximum, whichever is larger. -/
theorem graphInvoke_iteration_le (cfg : Config) (o : Oracles) (s0 : RunState) :
    (stateAfter (graphInvoke cfg o s0)).iteration_count ≤
      max (s0.iteration_count + 1) cfg.max_writing_iterations := by
  unfold graphInvoke
  have h1 := researchNode_iteration cfg.fact_confidence_threshold o.research s0
  cases hg1 : researchNode cfg.fact_confidence_threshold o.research s0 with
  | error e =>
    rw [hg1] at h1
    simp only [hg1]
    omega
  | ok s1 =>
    rw [hg1] at h1
    simp only [stateAfter] at h1
    simp only [hg1]
    have h2 := outlineNode_iteration o.outline s1
    have h3 := writeLoopAux_iteration_le cfg.max_writing_iterations o.writer o.critic
      (cfg.max_writing_iterations - (outlineNode o.outline s1).iteration_count)
      (outlineNode o.outline s1)
    cases hg2 : writeLoop cfg.max_writing_iterations o.writer o.critic (outlineNode o.outline s1) with
    | error e2 =>
      rw [show writeLoop cfg.max_writing_iterations o.writer o.critic (outlineNode o.outline s1) =
        writeLoopAux cfg.max_writing_iterations o.writer o.critic
          (cfg.max_writing_iterations - (outlineNode o.outline s1).iteration_count)
          (outlineNode o.outline s1) from rfl] at hg2
      rw [hg2] at h3
      simp only [hg2]
      omega
    | ok s3 =>
      rw [show writeLoop cfg.max_writing_iterations o.writer o.critic (outlineNode o.outline s1) =
        writeLoopAux cfg.max_writing_iterations o.writer o.critic
          (cfg.max_writing_iterations - (outlineNode o.outline s1).iteration_count)
          (outlineNode o.outline s1) from rfl] at hg2
      rw [hg2] at h3
      simp only [stateAfter] at h3
      simp only [hg2]
      have h4 := optimizeNode_iteration o.seo s3
      cases hg3 : optimizeNode o.seo s3 with
      | error e3 =>
        rw [hg3] at h4
        simp only [hg3]
        omega
      | ok s4 =>
        rw [hg3] at h4
        simp only [stateAfter] at h4
        simp only [hg3]
        have h5 := publishNode_iteration cfg o.approval o.pub s4
        simp only [stateAfter]
        omega

/-! ## Concrete fixtures for witnesses and counterexamples -/

def exTopic : Topic :=
  ⟨"Intro to RAG", "Retrieval-augmented generation", ["rag"], "technical readers", "informative"⟩

def exResearch : ResearchContext := ⟨[], ["fact"], [], 2⟩

def exLowConfContext : ResearchContext := ⟨[], [], [], 0⟩

def exOutline : BlogOutline := ⟨"Intro to RAG", "intro", [], "conclusion", 1500⟩

def exContent : BlogContent := ⟨"Intro to RAG", "body", "meta", ["rag"], "Tech", 900⟩

def exQAGood : QAResult := ⟨true, 1, [], [], 1⟩

def exQABad : QAResult := ⟨false, 0, ["too short"], [], 0⟩

def exConfig : Config := ⟨2, 1, false, false, "draft"⟩

/-- All collaborators succeed; research confidence 2 clears threshold 1. -/
def exOracles : Oracles :=
  ⟨.ok exResearch, .ok exOutline, fun _ => .ok exContent, fun _ => .ok exQAGood,
    seoOptimize, "", dryRunPublish⟩

/-- Same, but the critic raises on every pass. -/
def exOraclesCritFail : Oracles :=
  ⟨.ok exResearch, .ok exOutline, fun _ => .ok exContent, fun _ => .error "review failed",
    seoOptimize, "", dryRunPublish⟩

/-- Retrieval returned no documents; every later collaborator succeeds. -/
def exOraclesEmptyRetrieval : Oracles :=
  ⟨.ok (researchAgentRun [] (.ok [])), .ok exOutline, fun _ => .ok exContent,
    fun _ => .ok exQAGood, seoOptimize, "", dryRunPublish⟩

/-- Research succeeds with confidence 0, below threshold 1; everything else
succeeds. -/
def exOraclesLowConf : Oracles :=
  ⟨.ok exLowConfContext, .ok exOutline, fun _ => .ok exContent, fun _ => .ok exQAGood,
    seoOptimize, "", dryRunPublish⟩

/-- A state sitting at the gate with an unapproved QA result after one
write pass. -/
def exGateState : RunState :=
  ⟨some exTopic, some exResearch, some exOutline, some exContent, some exQABad,
    none, none, 1, "critique", []⟩

/-- A state entering the publish node with all upstream artifacts. -/
def exPubState : RunState :=
  ⟨some exTopic, some exResearch, some exOutline, some exContent, some exQAGood,
    some exContent, none, 2, "optimize", []⟩

/-- A state without the topic key, as handed to the research node. -/
def exNoTopicState : RunState :=
  ⟨none, none, none, none, none, none, none, 0, "initialized", []⟩

/-! ## Claim theorems -/

/-- C1: with `qa_result` present, `_should_revise` returns "optimize"
whenever `approved` is true regardless of the iteration counter; returns
"optimize" whenever `iteration_count >= max_writing_iterations` regardless
of `approved`; returns "revise" exactly when `approved` is false and
`iteration_count < max_writing_iterations`; and the route is a
deterministic, side-effect-free function of those two inputs (it is a pure
Lean function, and its value depends only on `approved` and
`iteration_count`). -/
theorem C1_revision_gate_decision (M : ℕ) (s : RunState) (qa : QAResult)
    (h : s.qa_result = some qa) :
    (qa.approved = true → shouldRevise M s = .ok "optimize") ∧
    (M ≤ s.iteration_count → shouldRevise M s = .ok "optimize") ∧
    (shouldRevise M s = .ok "revise" ↔ (qa.approved = false ∧ s.iteration_count < M)) ∧
    (∀ (s' : RunState) (qa' : QAResult), s'.qa_result = some qa' →
      qa'.approved = qa.approved → s'.iteration_count = s.iteration_count →
      shouldRevise M s' = shouldRevise M s) := by
  refine ⟨?_, ?_, ?_, ?_⟩
  · intro ha
    unfold shouldRevise
    rw [h]
    dsimp only []
    rw [if_pos ha]
  · intro hm
    unfold shouldRevise
    rw [h]
    dsimp only []
    by_cases ha : qa.approved
    · rw [if_pos ha]
    · rw [if_neg ha, if_pos hm]
  · constructor
    · intro hrev
      unfold shouldRevise at hrev
      rw [h] at hrev
      dsimp only [] at hrev
      by_cases ha : qa.approved
      · rw [if_pos ha] at hrev
        exact absurd ((Except.ok.injEq _ _).mp hrev) (by decide)
      · by_cases hm : M ≤ s.iteration_count
        · rw [if_neg ha, if_pos hm] at hrev
          exact absurd ((Except.ok.injEq _ _).mp hrev) (by decide)
        · exact ⟨Bool.not_eq_true _ ▸ ha, by omega⟩
    · rintro ⟨ha, hm⟩
      unfold shouldRevise
      rw [h]
      dsimp only []
      rw [if_neg (by rw [ha]; exact Bool.false_ne_true), if_neg (by omega)]
  · intro s' qa' h' hap hit
    unfold shouldRevise
    rw [h, h']
    dsimp only []
    rw [hap, hit]

/-- Witness for C1 at a concrete gate state: one pass done, not approved,
below the maximum, so the gate revises. -/
theorem C1_witness :
    shouldRevise 2 exGateState = .ok "revise" ∧
    exQABad.approved = false ∧ exGateState.iteration_count < 2 :=
  ⟨(C1_revision_gate_decision 2 exGateState exQABad rfl).2.2.1.mpr ⟨rfl, by decide⟩,
    rfl, by decide⟩

/-- C2: for every configuration, every set of collaborator behaviours and
every topic, the pipeline terminates (`runPipeline` is a total function)
and the final iteration counter — which counts the write→critique→gate
passes, since each pass increments it exactly once from 0 (see C4) — is at
most `max_writing_iterations + 1`. -/
theorem C2_loop_iteration_bound (cfg : Config) (o : Oracles) (t : Topic) :
    (runPipeline cfg o t).iteration_count ≤ cfg.max_writing_iterations + 1 := by
  have h := graphInvoke_iteration_le cfg o (initState t)
  unfold runPipeline
  cases hg : graphInvoke cfg o (initState t) with
  | ok f =>
    rw [hg] at h
    simp only [stateAfter] at h
    simp only [hg]
    have h0 : (initState t).iteration_count = 0 := rfl
    omega
  | error e =>
    obtain ⟨m, sc⟩ := e
    rw [hg] at h
    simp only [stateAfter] at h
    simp only [hg]
    have h0 : (initState t).iteration_count = 0 := rfl
    omega

/-- C4: the write node increments `iteration_count` by exactly 1,
unconditionally — its counter update happens before its fallible body, so
it also happens when the body fails; and no other operation of the run
(research, outline, critique, optimize, publish — whether they return or
raise) ever changes the counter, so `iteration_count` is non-decreasing
across a run. -/
theorem C4_iteration_counter :
    (∀ r s, (writeNode r s).iteration_count = s.iteration_count + 1) ∧
    (∀ th r s, (stateAfter (researchNode th r s)).iteration_count = s.iteration_count) ∧
    (∀ r s, (outlineNode r s).iteration_count = s.iteration_count) ∧
    (∀ r s, (critiqueNode r s).iteration_count = s.iteration_count) ∧
    (∀ r s, (stateAfter (optimizeNode r s)).iteration_count = s.iteration_count) ∧
    (∀ cfg a p s, (publishNode cfg a p s).iteration_count = s.iteration_count) :=
  ⟨writeNode_iteration, researchNode_iteration, outlineNode_iteration,
    critiqueNode_iteration, optimizeNode_iteration, publishNode_iteration⟩

/-- C5: no failure raises past `run` (`runPipeline` is total and returns a
state in every case); when the graph completes, `run` returns its final
state, whose stage marker is "publish" (the last stage); when an exception
escapes the graph, it can only be the gate reading the missing `qa_result`,
raised directly after a critique pass — `run` then returns the state as
mutated so far (the shared dict), with its full error list extended by the
pipeline error and with `current_stage = "critique"`, the last stage
reached. -/
theorem C5_failure_containment (cfg : Config) (o : Oracles) (t : Topic) :
    (∀ f, graphInvoke cfg o (initState t) = .ok f →
      runPipeline cfg o t = f ∧ f.current_stage = "publish") ∧
    (∀ m sc, graphInvoke cfg o (initState t) = .error (m, sc) →
      runPipeline cfg o t = { sc with errors := sc.errors ++ ["Pipeline error: " ++ m] } ∧
      sc.current_stage = "critique" ∧ sc.qa_result = none ∧ m = "KeyError: qa_result") := by
  obtain ⟨s1, hg1, ht1, ho1, hd1, hq1, hf1, hp1, hi1, hst1⟩ :=
    researchNode_ok_spec cfg.fact_confidence_threshold o.research (initState t) rfl
  have hq2 : (outlineNode o.outline s1).qa_result = none := by
    rw [(outlineNode_fields o.outline s1).2.2.2.1, hq1]
    rfl
  have hP2 : (outlineNode o.outline s1).qa_result.isSome →
      (outlineNode o.outline s1).draft_content.isSome := by
    rw [hq2]
    intro hcon
    exact absurd hcon (by simp)
  cases hg2 : writeLoop cfg.max_writing_iterations o.writer o.critic (outlineNode o.outline s1) with
  | ok s3 =>
    have hg2x : writeLoopAux cfg.max_writing_iterations o.writer o.critic
        (cfg.max_writing_iterations - (outlineNode o.outline s1).iteration_count)
        (outlineNode o.outline s1) = .ok s3 := hg2
    obtain ⟨hst3, hq3⟩ := writeLoopAux_ok _ _ _ _ _ _ hg2x
    have hP3 := writeLoopAux_preserves cfg.max_writing_iterations o.writer o.critic
      (fun u => u.qa_result.isSome → u.draft_content.isSome)
      writeNode_qa_draft critiqueNode_qa_draft
      (cfg.max_writing_iterations - (outlineNode o.outline s1).iteration_count)
      (outlineNode o.outline s1) hP2
    rw [hg2x] at hP3
    simp only [stateAfter] at hP3
    obtain ⟨d, hd3⟩ := Option.isSome_iff_exists.mp (hP3 hq3)
    obtain ⟨s4, hg3, hfin4, hst4, -, -, -, -, -⟩ := optimizeNode_ok_spec o.seo s3 d hd3
    have hGI : graphInvoke cfg o (initState t) = .ok (publishNode cfg o.approval o.pub s4) := by
      unfold graphInvoke
      rw [hg1]
      dsimp only []
      rw [hg2]
      dsimp only []
      rw [hg3]
    constructor
    · intro f hf
      rw [hGI] at hf
      obtain rfl := (Except.ok.injEq _ _).mp hf
      exact ⟨by unfold runPipeline; rw [hGI], publishNode_stage _ _ _ _⟩
    · intro m sc hm
      rw [hGI] at hm
      exact absurd hm (by simp)
  | error e =>
    obtain ⟨m0, sc0⟩ := e
    have hg2x : writeLoopAux cfg.max_writing_iterations o.writer o.critic
        (cfg.max_writing_iterations - (outlineNode o.outline s1).iteration_count)
        (outlineNode o.outline s1) = .error (m0, sc0) := hg2
    obtain ⟨hm0, hst0, hq0⟩ := writeLoopAux_error _ _ _ _ _ _ _ hg2x
    have hGI : graphInvoke cfg o (initState t) = .error (m0, sc0) := by
      unfold graphInvoke
      rw [hg1]
      dsimp only []
      rw [hg2]
    constructor
    · intro f hf
      rw [hGI] at hf
      exact absurd hf (by simp)
    · intro m sc hm
      rw [hGI] at hm
      simp only [Except.error.injEq, Prod.mk.injEq] at hm
      obtain ⟨rfl, rfl⟩ := hm
      exact ⟨by unfold runPipeline; rw [hGI], hst0, hq0, hm0⟩

/-- Witness for C5: a fully successful run ends at "publish"; a run whose
critic raises on the first pass ends with the gate exception converted at
the `run` boundary, the marker still reading "critique". -/
theorem C5_witness :
    (runPipeline exConfig exOracles exTopic).current_stage = "publish" ∧
    (runPipeline exConfig exOraclesCritFail exTopic).current_stage = "critique" ∧
    (stateAfter (graphInvoke exConfig exOraclesCritFail (initState exTopic))).qa_result = none := by
  refine ⟨?_, ?_, ?_⟩
  · exact ((C5_failure_containment exConfig exOracles exTopic).1 _ rfl).2
  · have h := (C5_failure_containment exConfig exOraclesCritFail exTopic).2
      "KeyError: qa_result"
      (stateAfter (graphInvoke exConfig exOraclesCritFail (initState exTopic))) rfl
    rw [h.1]
    exact h.2.1
  · exact ((C5_failure_containment exConfig exOraclesCritFail exTopic).2
      "KeyError: qa_result"
      (stateAfter (graphInvoke exConfig exOraclesCritFail (initState exTopic))) rfl).2.2.1

/-- C3: evaluation at the failing input. The critique stage fails on the
first pass: it appends "Critique error: review failed" and leaves
`qa_result` unset — that much matches the claim. But the gate then raises
`KeyError` on the missing `qa_result` instead of treating the state as
"advance": the run aborts through the pipeline-level handler with the
marker still at "critique", and the optimize and publish stages never
execute (`final_content` and `publish_result` stay unset). -/
theorem C3_gate_crash_on_missing_qa :
    (runPipeline exConfig exOraclesCritFail exTopic).errors =
      ["Critique error: review failed", "Pipeline error: KeyError: qa_result"] ∧
    (runPipeline exConfig exOraclesCritFail exTopic).qa_result = none ∧
    (runPipeline exConfig exOraclesCritFail exTopic).current_stage = "critique" ∧
    (runPipeline exConfig exOraclesCritFail exTopic).final_content = none ∧
    (runPipeline exConfig exOraclesCritFail exTopic).publish_result = none ∧
    shouldRevise exConfig.max_writing_iterations
        (stateAfter (graphInvoke exConfig exOraclesCritFail (initState exTopic)))
      = .error ("KeyError: qa_result",
        stateAfter (graphInvoke exConfig exOraclesCritFail (initState exTopic))) :=
  ⟨by decide, by decide, by decide, by decide, by decide, rfl⟩

/-- A non-empty string stays non-empty under right append. -/
theorem append_left_ne_empty (p m : String) (hp : p.length ≠ 0) : p ++ m ≠ "" := by
  intro h
  have h2 := congrArg String.length h
  rw [String.length_append] at h2
  have h4 : ("" : String).length = 0 := rfl
  omega

/-- The publish-collaborator failure classes named by the spec: missing
credentials, a network error, or an API error response (HTTP body whose
`tistory.status` is not "200"). -/
def publishFailureInput (key blog : Option String) (http : HttpOutcome) : Prop :=
  optFalsy key = true ∨ optFalsy blog = true ∨
  (∃ m, http = .netError m) ∨
  (∃ st em pid purl, http = .response st em pid purl ∧ st ≠ some "200")

/-- An API error response that itself carries an empty `error_message`
string. -/
def apiEmptyMessage (http : HttpOutcome) : Prop :=
  ∃ st pid purl, http = .response st (some "") pid purl

/-- C6 counterexample: an API error response whose body carries
`error_message: ""`. The publish node records a `publish_result` with
`success = false` but with the empty `error_message` propagated verbatim —
so the claimed "non-empty error_message" fails at this input. -/
theorem C6_counterexample :
    (publishNode exConfig ""
        (tistoryPublish (some "k") (some "b") (.response (some "500") (some "") none none))
        exPubState).publish_result
      = some ⟨false, none, none, some "", none⟩ := by decide

/-- Outside the credential guard, a failing `TistoryPublisher.publish`
call — network error, or API error response not carrying an empty message —
returns `success = false` with a non-empty error message; with the guard
triggered it returns the fixed credentials message. -/
theorem tistoryPublish_failure (key blog : Option String) (http : HttpOutcome)
    (c : BlogContent) (vis : String)
    (hfail : publishFailureInput key blog http) (hnem : ¬ apiEmptyMessage http) :
    (tistoryPublish key blog http c vis).success = false ∧
    ∃ m, (tistoryPublish key blog http c vis).error_message = some m ∧ m ≠ "" := by
  unfold tistoryPublish
  by_cases hcred : (optFalsy key || optFalsy blog) = true
  · rw [if_pos hcred]
    exact ⟨rfl, "Tistory credentials not configured", rfl, by decide⟩
  · rw [if_neg hcred]
    rcases hfail with hk | hb | ⟨m, rfl⟩ | ⟨st, em, pid, purl, rfl, hst⟩
    · exact absurd (by rw [hk]; rfl) hcred
    · exact absurd (by rw [hb]; exact Bool.or_true _) hcred
    · exact ⟨rfl, "Network error: " ++ m, rfl, append_left_ne_empty _ _ (by decide)⟩
    · dsimp only []
      rw [if_neg hst]
      refine ⟨rfl, em.getD "Unknown error", rfl, ?_⟩
      cases em with
      | none => decide
      | some e =>
        intro he
        have he2 : e = "" := he
        exact hnem ⟨st, pid, purl, by rw [he2]⟩

/-- C6 amended: whenever the publish collaborator fails through missing
credentials, a network error, or an API error response — except an API
error response that itself supplies an empty `error_message` string, which
the code propagates verbatim (see the counterexample) — the publish node
records a publish result with `success = false` and a non-empty error
message, and the upstream artifacts (outline, draft, final content) are
unchanged by the publish stage. -/
theorem C6_publish_failure_amended (cfg : Config) (a : String) (s : RunState)
    (c : BlogContent) (key blog : Option String) (http : HttpOutcome)
    (hfc : s.final_content = some c)
    (hman : cfg.enable_manual_approval = false)
    (hfail : publishFailureInput key blog http)
    (hnem : ¬ apiEmptyMessage http) :
    (publishNode cfg a (tistoryPublish key blog http) s).publish_result.map PublishResult.success
      = some false ∧
    ((publishNode cfg a (tistoryPublish key blog http) s).publish_result.bind
      PublishResult.error_message).isSome ∧
    (publishNode cfg a (tistoryPublish key blog http) s).publish_result.bind
      PublishResult.error_message ≠ some "" ∧
    (publishNode cfg a (tistoryPublish key blog http) s).outline = s.outline ∧
    (publishNode cfg a (tistoryPublish key blog http) s).draft_content = s.draft_content ∧
    (publishNode cfg a (tistoryPublish key blog http) s).final_content = s.final_content := by
  have hres : (publishNode cfg a (tistoryPublish key blog http) s).publish_result =
      some (tistoryPublish key blog http c
        (if cfg.auto_publish then cfg.publish_mode else "draft")) := by
    unfold publishNode
    rw [hfc]
    dsimp only []
    rw [hman, if_neg (by simp)]
  obtain ⟨hsucc, m, hmsg, hm⟩ := tistoryPublish_failure key blog http c
    (if cfg.auto_publish then cfg.publish_mode else "draft") hfail hnem
  have hflds := publishNode_fields cfg a (tistoryPublish key blog http) s
  refine ⟨?_, ?_, ?_, hflds.2.2.1, hflds.2.2.2.1, hflds.2.2.2.2.2⟩
  · rw [hres]
    simp [hsucc]
  · rw [hres]
    simp [hmsg]
  · rw [hres]
    simp [hmsg, hm]

/-- Witness for C6 (amended) at a concrete input: missing API key, network
layer refusing the connection. -/
theorem C6_witness :
    (publishNode exConfig "" (tistoryPublish none (some "b") (.netError "refused"))
      exPubState).publish_result.map PublishResult.success = some false ∧
    ((publishNode exConfig "" (tistoryPublish none (some "b") (.netError "refused"))
      exPubState).publish_result.bind PublishResult.error_message).isSome ∧
    (publishNode exConfig "" (tistoryPublish none (some "b") (.netError "refused"))
      exPubState).publish_result.bind PublishResult.error_message ≠ some "" ∧
    (publishNode exConfig "" (tistoryPublish none (some "b") (.netError "refused"))
      exPubState).outline = exPubState.outline := by
  have h := C6_publish_failure_amended exConfig "" exPubState exContent none (some "b")
    (.netError "refused") rfl rfl (Or.inl rfl)
    (by rintro ⟨st, pid, purl, hh⟩; exact HttpOutcome.noConfusion hh)
  exact ⟨h.1, h.2.1, h.2.2.1, h.2.2.2.1⟩

/-- With the topic present and a successful research agent, the research
node stores the produced context and leaves topic, outline and QA result
untouched. -/
theorem researchNode_sets_context (th : ℚ) (rc : ResearchContext) (s : RunState)
    (h : s.topic.isSome) :
    ∃ s', researchNode th (.ok rc) s = .ok s' ∧ s'.research_context = some rc ∧
      s'.topic = s.topic ∧ s'.outline = s.outline ∧ s'.qa_result = s.qa_result := by
  obtain ⟨tp, htp⟩ := Option.isSome_iff_exists.mp h
  unfold researchNode
  rw [htp]
  dsimp only []
  by_cases hc : rc.confidence_score < th
  · rw [if_pos hc]
    exact ⟨_, rfl, rfl, htp ▸ rfl, rfl, rfl⟩
  · rw [if_neg hc]
    exact ⟨_, rfl, rfl, htp ▸ rfl, rfl, rfl⟩

/-- C7: a research agent run over zero retrieved documents produces a
`ResearchContext` with `confidence_score = 0.0` and an empty key-facts
list; and a pipeline whose research outcome is that context — with the
outline, writer and critic collaborators succeeding — still runs to the
publish stage (the final stage marker is "publish" and a publish result is
recorded) rather than aborting. -/
theorem C7_empty_retrieval (facts : Except String (List String)) (cfg : Config)
    (o : Oracles) (t : Topic)
    (hres : o.research = .ok (researchAgentRun [] facts))
    (hout : ∃ b, o.outline = .ok b)
    (hw : ∀ i, ∃ b, o.writer i = .ok b)
    (hc : ∀ i, ∃ q, o.critic i = .ok q) :
    (researchAgentRun [] facts).confidence_score = 0 ∧
    (researchAgentRun [] facts).key_facts = [] ∧
    (runPipeline cfg o t).current_stage = "publish" ∧
    (runPipeline cfg o t).publish_result.isSome := by
  obtain ⟨s1, hg1, hrc1, ht1, ho1, hq1⟩ := researchNode_sets_context
    cfg.fact_confidence_threshold (researchAgentRun [] facts) (initState t) rfl
  obtain ⟨b, hob⟩ := hout
  have hflds2 := outlineNode_fields o.outline s1
  have ht1s : s1.topic.isSome := by rw [ht1]; rfl
  have hrc1s : s1.research_context.isSome := by rw [hrc1]; rfl
  have ht2 : (outlineNode o.outline s1).topic.isSome := by rw [hflds2.1]; exact ht1s
  have hrc2 : (outlineNode o.outline s1).research_context.isSome := by
    rw [hflds2.2.1]; exact hrc1s
  have ho2 : (outlineNode o.outline s1).outline.isSome := by
    rw [hob, outlineNode_ok b s1 ht1s hrc1s]; rfl
  have hq2 : (outlineNode o.outline s1).qa_result = none := by
    rw [hflds2.2.2.2.1, hq1]; rfl
  obtain ⟨s3, hg2⟩ := writeLoopAux_success cfg.max_writing_iterations o.writer o.critic
    hw hc (cfg.max_writing_iterations - (outlineNode o.outline s1).iteration_count)
    (outlineNode o.outline s1) ht2 ho2 hrc2
  obtain ⟨hst3, hq3⟩ := writeLoopAux_ok _ _ _ _ _ _ hg2
  have hP2 : (outlineNode o.outline s1).qa_result.isSome →
      (outlineNode o.outline s1).draft_content.isSome := by
    rw [hq2]
    intro hcon
    exact absurd hcon (by simp)
  have hP3 := writeLoopAux_preserves cfg.max_writing_iterations o.writer o.critic
    (fun u => u.qa_result.isSome → u.draft_content.isSome)
    writeNode_qa_draft critiqueNode_qa_draft
    (cfg.max_writing_iterations - (outlineNode o.outline s1).iteration_count)
    (outlineNode o.outline s1) hP2
  rw [hg2] at hP3
  simp only [stateAfter] at hP3
  obtain ⟨d, hd3⟩ := Option.isSome_iff_exists.mp (hP3 hq3)
  obtain ⟨s4, hg3, hfin4, -, -, -, -, -, -⟩ := optimizeNode_ok_spec o.seo s3 d hd3
  obtain ⟨cf, hcf⟩ := Option.isSome_iff_exists.mp hfin4
  have hGI : graphInvoke cfg o (initState t) = .ok (publishNode cfg o.approval o.pub s4) := by
    unfold graphInvoke
    rw [hres, hg1]
    dsimp only []
    rw [show writeLoop cfg.max_writing_iterations o.writer o.critic (outlineNode o.outline s1)
      = .ok s3 from hg2]
    dsimp only []
    rw [hg3]
  have hrun : runPipeline cfg o t = publishNode cfg o.approval o.pub s4 := by
    unfold runPipeline
    rw [hGI]
  refine ⟨rfl, rfl, ?_, ?_⟩
  · rw [hrun]
    exact publishNode_stage _ _ _ _
  · rw [hrun]
    exact publishNode_result cfg o.approval o.pub s4 cf hcf

/-- Witness for C7: the empty-retrieval research context with all other
collaborators succeeding reaches publish. -/
theorem C7_witness :
    (researchAgentRun [] (.ok [])).confidence_score = 0 ∧
    (researchAgentRun [] (.ok [])).key_facts = [] ∧
    (runPipeline exConfig exOraclesEmptyRetrieval exTopic).current_stage = "publish" ∧
    (runPipeline exConfig exOraclesEmptyRetrieval exTopic).publish_result.isSome :=
  C7_empty_retrieval (.ok []) exConfig exOraclesEmptyRetrieval exTopic rfl
    ⟨exOutline, rfl⟩ (fun _ => ⟨exContent, rfl⟩) (fun _ => ⟨exQAGood, rfl⟩)

/-- C8 counterexample: the research node looks up and validates the topic
(pipeline.py line 69) before setting `current_stage` (line 70). Called on a
state without the topic key it raises with the stage marker still at its
previous value, "initialized", not "research" — so the research stage does
not set its marker before all other work on the state. -/
theorem C8_counterexample :
    researchNode 1 (.ok exLowConfContext) exNoTopicState =
      .error ("KeyError: topic", exNoTopicState) ∧
    (stateAfter (researchNode 1 (.ok exLowConfContext) exNoTopicState)).current_stage
      = "initialized" :=
  ⟨rfl, rfl⟩

/-- C8 amended: outline, write, critique, optimize and publish stamp
`current_stage` with their own name before any fallible work, so any state
they leave behind — on return or on an escaping exception — carries their
name; the research stage first reads and validates the topic from the
state, and stamps "research" only under the assumption that the topic key
is present (which holds in every pipeline-initiated run). -/
theorem C8_stage_stamp_amended :
    (∀ r s, (outlineNode r s).current_stage = "outline") ∧
    (∀ r s, (writeNode r s).current_stage = "write") ∧
    (∀ r s, (critiqueNode r s).current_stage = "critique") ∧
    (∀ r s, (stateAfter (optimizeNode r s)).current_stage = "optimize") ∧
    (∀ cfg a p s, (publishNode cfg a p s).current_stage = "publish") ∧
    (∀ th r s, s.topic.isSome → (stateAfter (researchNode th r s)).current_stage = "research") :=
  ⟨outlineNode_stage, writeNode_stage, critiqueNode_stage, optimizeNode_stage,
    publishNode_stage, researchNode_stage⟩

/-- Witness for C8 (amended): the research stamp under a present topic. -/
theorem C8_witness :
    (stateAfter (researchNode 1 (.ok exResearch) (initState exTopic))).current_stage
      = "research" :=
  C8_stage_stamp_amended.2.2.2.2.2 1 (.ok exResearch) (initState exTopic) rfl

/-- C9: when research succeeds but the produced context scores below the
configured threshold, the research node appends the low-confidence warning
to the error list; and a run in which every stage succeeds (the concrete
run here ends at "publish" with a successful publish result) can still
terminate with a non-empty error list consisting of that warning. -/
theorem C9_low_confidence_warning (th : ℚ) (rc : ResearchContext) (s : RunState)
    (tp : Topic) (htp : s.topic = some tp) (hconf : rc.confidence_score < th) :
    researchNode th (.ok rc) s = .ok { s with
      current_stage := "research",
      research_context := some rc,
      errors := s.errors ++
        ["Research confidence below threshold: " ++ fmt2 rc.confidence_score] } ∧
    (runPipeline exConfig exOraclesLowConf exTopic).errors =
      ["Research confidence below threshold: 0.00"] ∧
    (runPipeline exConfig exOraclesLowConf exTopic).current_stage = "publish" ∧
    (runPipeline exConfig exOraclesLowConf exTopic).publish_result.map PublishResult.success
      = some true := by
  refine ⟨?_, by decide, by decide, by decide⟩
  unfold researchNode
  rw [htp]
  dsimp only []
  rw [if_pos hconf]

/-- Witness for C9 at a concrete state: confidence 0 against threshold 1. -/
theorem C9_witness :
    (0:ℚ) < 1 ∧
    researchNode 1 (.ok exLowConfContext) (initState exTopic) =
      .ok { initState exTopic with
        current_stage := "research",
        research_context := some exLowConfContext,
        errors := (initState exTopic).errors ++
          ["Research confidence below threshold: " ++ fmt2 exLowConfContext.confidence_score] } :=
  ⟨by decide,
    (C9_low_confidence_warning 1 exLowConfContext (initState exTopic) exTopic rfl
      (by decide)).1⟩

/-- C10: with a missing (or empty) API key or blog name, both
`TistoryPublisher.publish` and `update_post` return
`PublishResult(success=False, error_message="Tistory credentials not
configured")` for every content, visibility and post id — independently of
the HTTP oracle, which is consulted only after the credential guard, i.e.
no HTTP request is attempted, and nothing is raised (the functions are
total). -/
theorem C10_credentials_guard (key blog : Option String) (http : HttpOutcome)
    (c : BlogContent) (vis pid : String)
    (h : optFalsy key = true ∨ optFalsy blog = true) :
    tistoryPublish key blog http c vis =
      ⟨false, none, none, some "Tistory credentials not configured", none⟩ ∧
    tistoryUpdatePost key blog http pid c =
      ⟨false, none, none, some "Tistory credentials not configured", none⟩ := by
  have hb : (optFalsy key || optFalsy blog) = true := by
    rcases h with h | h <;> simp [h]
  constructor
  · unfold tistoryPublish
    rw [if_pos hb]
  · unfold tistoryUpdatePost
    rw [if_pos hb]

/-- Witness for C10: a publisher with no API key. -/
theorem C10_witness :
    tistoryPublish none (some "b") (.netError "x") exContent "draft" =
      ⟨false, none, none, some "Tistory credentials not configured", none⟩ ∧
    tistoryUpdatePost none (some "b") (.netError "x") "42" exContent =
      ⟨false, none, none, some "Tistory credentials not configured", none⟩ :=
  C10_credentials_guard none (some "b") (.netError "x") exContent "draft" "42" (Or.inl rfl)

end BlogPipeline
